import Mathlib

set_option linter.unusedVariables false

/-!
Shallow embedding of the tracer repository (package tracer): span derivation,
the context association slot, the fasthttp carrier adapter, the outbound
fasthttp request pipeline, and the inbound http middleware.

Conventions of the embedding:
* Go interface values that may be nil are modelled with Option.
* Header collections are association lists in their visitation order.
* The underlying opentracing tracer (jaeger or the in-repo noop tracer) is an
  oracle structure of behaviour functions; the in-repo noop tracer is the
  concrete value noopOTracer translated from the source.
* Go map iteration order is modelled by passing the map as a list of pairs in
  some iteration order.
-/

/-- Error values (Go error interface); none is a nil error. -/
abbrev Err := String

/-- Opaque span identity (opentracing.SpanContext); the noop tracer returns the
shared noop span context, a jaeger-like tracer mints real identities. -/
inductive SpanContext where
  | noopSC : SpanContext
  | real : Nat → SpanContext
deriving DecidableEq, Repr

/-- opentracing.SpanReference: the relationship options passed to StartSpan. -/
inductive SpanReference where
  | childOf : SpanContext → SpanReference
  | followsFrom : SpanContext → SpanReference
deriving DecidableEq, Repr

/-- opentracing.SpanReferenceType as used by getSpanFromHttpHeader. -/
inductive SpanReferenceType where
  | childOfRef
  | followsFromRef
deriving DecidableEq, Repr

/-- A span as observable through the embedding: the operation name and the
references it was started with, plus the identity its Context() reports. -/
structure Span where
  opName : String
  spanCtx : SpanContext
  refs : List SpanReference
deriving DecidableEq, Repr

/-- Headers as an association list in visitation order. -/
abbrev Headers := List (String × String)

/-- The value stored in a Go context under the private activeSpanKey: nothing,
a live opentracing.Span, or an opentracing.SpanContext (the type switch in
spanInfoFromContext distinguishes exactly these). -/
inductive CtxVal where
  | empty : CtxVal
  | span : Span → CtxVal
  | spanCtx : SpanContext → CtxVal
deriving DecidableEq, Repr

/-- A (non-nil) Go context, abstracted to its activeSpanKey slot; a nil
context is Option.none at use sites. -/
structure Context where
  slot : CtxVal
deriving DecidableEq, Repr

/-- Oracle for the underlying opentracing.Tracer behaviour: what StartSpan
returns for a name and reference list, whether Inject errors for a span
context, and what Extract yields for each of the two registered codec formats
(opentracing.HTTPHeaders and fasthttpHeadersCodecFormat). An Extract first
component of none models a nil SpanContext interface value. -/
structure OTracer where
  startSpan : String → List SpanReference → Span
  inject : SpanContext → Option Err
  extractHttp : Headers → Option SpanContext × Option Err
  extractFasthttp : Headers → Option SpanContext × Option Err

/-- The shared noop span (defaultNoopSpan); its Context() is the shared noop
span context. -/
def defaultNoopSpan : Span := { opName := "", spanCtx := SpanContext.noopSC, refs := [] }

/-- The in-repo noopTracer, translated from the source: StartSpan returns the
shared noop span ignoring its arguments, Inject returns nil, and Extract
returns the shared (non-nil) defaultNoopSpanContext with a nil error. -/
def noopOTracer : OTracer where
  startSpan := fun _ _ => defaultNoopSpan
  inject := fun _ => none
  extractHttp := fun _ => (some SpanContext.noopSC, none)
  extractFasthttp := fun _ => (some SpanContext.noopSC, none)

/-- tracerImpl: the wrapped opentracing tracer; isNoopSingleton models Go
pointer identity with the package-level noopTracerImpl singleton (the value
compared by the middleware's ti == noopTracerImpl check). -/
structure TracerImpl where
  tracer : OTracer
  isNoopSingleton : Bool

/-- The package-level noopTracerImpl singleton. -/
def noopTracerImpl : TracerImpl := { tracer := noopOTracer, isNoopSingleton := true }

/-- InitEmptyTracer returns the noopTracerImpl singleton. -/
def InitEmptyTracer : TracerImpl := noopTracerImpl

/-- tracerImpl.StartSpan. -/
def StartSpan (ti : TracerImpl) (opName : String) : Span :=
  ti.tracer.startSpan opName []

/-- tracerImpl.spanInfoFromContext: nil context yields (nil, nil); otherwise a
type switch on the activeSpanKey value, preferring a live Span. -/
def spanInfoFromContext (ctx : Option Context) : Option Span × Option SpanContext :=
  match ctx with
  | none => (none, none)
  | some c =>
    match c.slot with
    | CtxVal.span s => (some s, none)
    | CtxVal.spanCtx sc => (none, some sc)
    | CtxVal.empty => (none, none)

/-- tracerImpl.ChildSpanFromParent: nil parent starts a fresh root span, else a
span started with a ChildOf reference to the parent's Context(). -/
def ChildSpanFromParent (ti : TracerImpl) (opName : String) (parent : Option Span) : Span :=
  match parent with
  | none => StartSpan ti opName
  | some p => ti.tracer.startSpan opName [SpanReference.childOf p.spanCtx]

/-- tracerImpl.FollowerSpanFromParent: nil parent starts a fresh root span,
else a span started with a FollowsFrom reference to the parent's Context(). -/
def FollowerSpanFromParent (ti : TracerImpl) (opName : String) (parent : Option Span) : Span :=
  match parent with
  | none => StartSpan ti opName
  | some p => ti.tracer.startSpan opName [SpanReference.followsFrom p.spanCtx]

/-- tracerImpl.ChildSpanFromContext: live Span first, then stored SpanContext,
then the fresh-root fallback. -/
def ChildSpanFromContext (ti : TracerImpl) (opName : String) (ctx : Option Context) : Span :=
  match spanInfoFromContext ctx with
  | (some s, _) => ChildSpanFromParent ti opName (some s)
  | (none, some sc) => ti.tracer.startSpan opName [SpanReference.childOf sc]
  | (none, none) => StartSpan ti opName

/-- tracerImpl.FollowerSpanFromContext. -/
def FollowerSpanFromContext (ti : TracerImpl) (opName : String) (ctx : Option Context) : Span :=
  match spanInfoFromContext ctx with
  | (some s, _) => FollowerSpanFromParent ti opName (some s)
  | (none, some sc) => ti.tracer.startSpan opName [SpanReference.followsFrom sc]
  | (none, none) => StartSpan ti opName

/-- Go url[:len(url)-1] on the builder result: drop the final byte. -/
def stringDropLast (s : String) : String := String.mk s.data.dropLast

/-- MakeupUrlByHostPathQueryParams, with the Go map passed as a list of
key-value pairs in its iteration order: empty yields host ++ path, otherwise
the builder writes host, path, a question mark, then k=v& per pair, and the
trailing ampersand byte is sliced off. -/
def MakeupUrlByHostPathQueryParams (host path : String)
    (queryParams : List (String × String)) : String :=
  if queryParams.length = 0 then
    host ++ path
  else
    stringDropLast (queryParams.foldl
      (fun acc kv => acc ++ kv.1 ++ "=" ++ kv.2 ++ "&") (host ++ path ++ "?"))

/-- The spec-side query encoding: pairs rendered k=v and joined by single
ampersands with no trailing separator. -/
def specAmpJoin : List String → String
  | [] => ""
  | [x] => x
  | x :: y :: rest => x ++ "&" ++ specAmpJoin (y :: rest)

example : MakeupUrlByHostPathQueryParams "h" "/p" [] = "h/p" := by decide
example : MakeupUrlByHostPathQueryParams "h" "/p" [("a", "1"), ("b", "2")]
    = "h/p?a=1&b=2" := by decide
example : specAmpJoin ["a=1", "b=2"] = "a=1&b=2" := by decide

/-- tracerImpl.Inject2FasthttpHeader: nil span leaves err nil, else the tracer
injects the span's Context() under the fasthttp codec format. -/
def Inject2FasthttpHeader (ti : TracerImpl) (span : Option Span) : Option Err :=
  match span with
  | none => none
  | some s => ti.tracer.inject s.spanCtx

/-- tracerImpl.extractFromHttpHeader: tracer.Extract under HTTPHeaders. -/
def extractFromHttpHeader (ti : TracerImpl) (header : Headers) :
    Option SpanContext × Option Err :=
  ti.tracer.extractHttp header

/-- tracerImpl.extractFromFasthttpHeader: tracer.Extract under the fasthttp
codec format through the fasthttpRespHeaderCarrier adapter. -/
def extractFromFasthttpHeader (ti : TracerImpl) (header : Headers) :
    Option SpanContext × Option Err :=
  ti.tracer.extractFasthttp header

/-- tracerImpl.ContextWithSpan: nil ctx or nil span returns the given ctx,
else context.WithValue(ctx, activeSpanKey, span). -/
def ContextWithSpan (ctx : Option Context) (span : Option Span) : Option Context :=
  match ctx, span with
  | none, _ => none
  | some c, none => some c
  | some _, some s => some { slot := CtxVal.span s }

/-- tracerImpl.CtxWithSpanCtxFromHttpHeader: nil ctx returns nil; a nil
extracted span context (the error is discarded) returns the given ctx itself;
otherwise context.WithValue stores the extracted span context. -/
def CtxWithSpanCtxFromHttpHeader (ti : TracerImpl) (ctx : Option Context)
    (header : Headers) : Option Context :=
  match ctx with
  | none => none
  | some c =>
    match (extractFromHttpHeader ti header).1 with
    | none => some c
    | some sc => some { slot := CtxVal.spanCtx sc }

/-- tracerImpl.CtxWithSpanCtxFromFasthttpHeader: same shape over the fasthttp
response header. -/
def CtxWithSpanCtxFromFasthttpHeader (ti : TracerImpl) (ctx : Option Context)
    (header : Headers) : Option Context :=
  match ctx with
  | none => none
  | some c =>
    match (extractFromFasthttpHeader ti header).1 with
    | none => some c
    | some sc => some { slot := CtxVal.spanCtx sc }

/-- tracerImpl.getSpanFromHttpHeader: extract (discarding the error); nil span
context starts a root span, otherwise a span with the requested reference. -/
def getSpanFromHttpHeader (ti : TracerImpl) (opName : String) (header : Headers)
    (refType : SpanReferenceType) : Span :=
  match (extractFromHttpHeader ti header).1 with
  | none => ti.tracer.startSpan opName []
  | some sc =>
    match refType with
    | SpanReferenceType.childOfRef =>
      ti.tracer.startSpan opName [SpanReference.childOf sc]
    | SpanReferenceType.followsFromRef =>
      ti.tracer.startSpan opName [SpanReference.followsFrom sc]

/-- tracerImpl.ChildSpanFromHttpHeader. -/
def ChildSpanFromHttpHeader (ti : TracerImpl) (opName : String) (header : Headers) : Span :=
  getSpanFromHttpHeader ti opName header SpanReferenceType.childOfRef

/-- fasthttpRespHeaderCarrier.ForeachKey's VisitAll loop: every pair is
visited unconditionally (fasthttp's VisitAll cannot be stopped); the closure
overwrites the captured err with the handler's result at each pair. Returns
the final err together with the list of visited pairs in order. -/
def visitAllWithHandler (handler : String → String → Option Err) :
    Headers → Option Err → Option Err × Headers
  | [], acc => (acc, [])
  | kv :: rest, _ =>
    let res := visitAllWithHandler handler rest (handler kv.1 kv.2)
    (res.1, kv :: res.2)

/-- fasthttpRespHeaderCarrier.ForeachKey: the err named return (zero value
nil) after the VisitAll loop. -/
def ForeachKey (header : Headers) (handler : String → String → Option Err) : Option Err :=
  (visitAllWithHandler handler header none).1

/-- The pairs ForeachKey hands to the handler, in order. -/
def foreachKeyVisited (header : Headers) (handler : String → String → Option Err) : Headers :=
  (visitAllWithHandler handler header none).2

/-- An inbound http.Request as the middleware observes it: method, URL path,
header, and the request context. -/
structure Request where
  method : String
  urlPath : String
  header : Headers
  ctx : Option Context

/-- getOperationNameFromHttpRequest: the builder writes the literal HTTP
prefix, then the method, a space, and the URL path. -/
def getOperationNameFromHttpRequest (r : Request) : String :=
  "HTTP " ++ r.method ++ " " ++ r.urlPath

/-- The spec-side operation name: method, a single space, and the path. -/
def specOperationName (r : Request) : String :=
  r.method ++ " " ++ r.urlPath

/-- statusCodeTracker: statusCode starts at Go's zero value 0 and each
WriteHeader call overwrites it with its argument (the call is also forwarded
to the wrapped writer). The final field value after a sequence of WriteHeader
calls is the fold of those overwrites. -/
def trackStatusCode (writes : List Nat) : Nat :=
  writes.foldl (fun _ statusCode => statusCode) 0

/-- A log field recorded on a span (opentracing log.String / log.Int). -/
inductive LogField where
  | str : String → String → LogField
  | int : String → Int → LogField
deriving DecidableEq, Repr

/-- The fixed component log field of the middleware. -/
def logFieldHttpMiddleWareComponentName : LogField :=
  LogField.str "component" "ot-mw-tracer"

/-- An http.Handler: either an application handler, characterised by the
WriteHeader calls it makes for a request, or the traced wrapper the
middleware builds around an inner handler. -/
inductive Handler where
  | base : (Request → List Nat) → Handler
  | traced : TracerImpl → Handler → Handler

/-- tracerImpl.HttpMiddleWare: the noopTracerImpl singleton returns the
handler itself; otherwise the traced wrapper around it. -/
def HttpMiddleWare (ti : TracerImpl) (handler : Handler) : Handler :=
  if ti.isNoopSingleton then handler else Handler.traced ti handler

/-- Result of serving a request: the WriteHeader calls that reached the
underlying response writer, and the finished spans in finishing order, each
with the log fields recorded on it. -/
structure ServeResult where
  writerCalls : List Nat
  finishedSpans : List (Span × List LogField)
deriving Repr

/-- ServeHTTP semantics. A base handler performs its WriteHeader calls and
finishes no span. The traced wrapper derives a child span from the inbound
header with the built operation name, swaps the span into the request
context, runs the inner handler against the statusCodeTracker wrapping of the
writer, then logs the component field and the tracked status code onto the
span and finishes it. -/
def serve : Handler → Request → ServeResult
  | Handler.base writes, r => { writerCalls := writes r, finishedSpans := [] }
  | Handler.traced ti inner, r =>
    let child := ChildSpanFromHttpHeader ti (getOperationNameFromHttpRequest r) r.header
    let res := serve inner { r with ctx := ContextWithSpan r.ctx (some child) }
    { writerCalls := res.writerCalls
      finishedSpans := res.finishedSpans ++
        [(child, [logFieldHttpMiddleWareComponentName,
          LogField.int "http.status_code" (Int.ofNat (trackStatusCode res.writerCalls))])] }

/-- Observable steps of the outbound fasthttp pipeline, in execution order. -/
inductive Event where
  | spanStart
  | inject
  | marshal
  | send
  | extract
  | callbacks
  | spanFinish
deriving DecidableEq, Repr

/-- Oracle for the external collaborators of one outbound call: the
serialization result for the supplied body, the transport result, and the
response's header and body. -/
structure FasthttpEnv where
  marshalRes : Except Err (List Nat)
  sendErr : Option Err
  respHeader : Headers
  respBody : List Nat

/-- The (newCtx, respBody, err) named returns of fasthttpReq together with
the event trace; the named returns start at their nil zero values and early
returns leave them nil. -/
structure FasthttpResult where
  newCtx : Option Context
  respBody : Option (List Nat)
  err : Option Err
  events : List Event
deriving Repr

/-- tracerImpl.fasthttpReq: derive a child span named by the url (its Finish
is deferred, so it closes every path); inject it into the request header,
returning the error before any send on failure; marshal the body if one is
supplied, failing the call on error; send with timeout, failing the call on
error; on success fold the response header's span context into a new context,
run callbacks, and copy the body out. jsonData is abstracted to whether a
body value was supplied; the serializer's behaviour on it comes from env. -/
def fasthttpReq (ti : TracerImpl) (env : FasthttpEnv) (ctx : Option Context)
    (url method : String) (hasJsonData : Bool) : FasthttpResult :=
  let childSpan := ChildSpanFromContext ti url ctx
  match Inject2FasthttpHeader ti (some childSpan) with
  | some e =>
    { newCtx := none, respBody := none, err := some e
      events := [Event.spanStart, Event.inject, Event.spanFinish] }
  | none =>
    let bodyStep : Option Err := if hasJsonData then
        match env.marshalRes with
        | Except.error e => some e
        | Except.ok _ => none
      else none
    match bodyStep with
    | some e =>
      { newCtx := none, respBody := none, err := some e
        events := [Event.spanStart, Event.inject, Event.marshal, Event.spanFinish] }
    | none =>
      let pre := [Event.spanStart, Event.inject] ++
        (if hasJsonData then [Event.marshal] else [])
      match env.sendErr with
      | some e =>
        { newCtx := none, respBody := none, err := some e
          events := pre ++ [Event.send, Event.spanFinish] }
      | none =>
        { newCtx := CtxWithSpanCtxFromFasthttpHeader ti ctx env.respHeader
          respBody := some env.respBody
          err := none
          events := pre ++ [Event.send, Event.extract, Event.callbacks, Event.spanFinish] }

/-- tracerImpl.GetFasthttp: fasthttpReq with method GET and nil jsonData. -/
def GetFasthttp (ti : TracerImpl) (env : FasthttpEnv) (ctx : Option Context)
    (url : String) : FasthttpResult :=
  fasthttpReq ti env ctx url "GET" false

/-- tracerImpl.PostJsonFasthttp: fasthttpReq with method POST and the given
body presence. -/
def PostJsonFasthttp (ti : TracerImpl) (env : FasthttpEnv) (ctx : Option Context)
    (url : String) (hasJsonData : Bool) : FasthttpResult :=
  fasthttpReq ti env ctx url "POST" hasJsonData

/-- tracerImpl.PutJsonFasthttp. -/
def PutJsonFasthttp (ti : TracerImpl) (env : FasthttpEnv) (ctx : Option Context)
    (url : String) (hasJsonData : Bool) : FasthttpResult :=
  fasthttpReq ti env ctx url "PUT" hasJsonData

/-- tracerImpl.DeleteJsonFasthttp. -/
def DeleteJsonFasthttp (ti : TracerImpl) (env : FasthttpEnv) (ctx : Option Context)
    (url : String) (hasJsonData : Bool) : FasthttpResult :=
  fasthttpReq ti env ctx url "DELETE" hasJsonData

/-- A jaeger-like concrete tracer oracle used for concrete evaluations: real
identities, successful injection, and extraction that finds nothing. -/
def sampleOTracer : OTracer where
  startSpan := fun op refs => { opName := op, spanCtx := SpanContext.real 7, refs := refs }
  inject := fun _ => none
  extractHttp := fun _ => (none, some "opentracing: SpanContext not found in Extract carrier")
  extractFasthttp := fun _ => (none, some "opentracing: SpanContext not found in Extract carrier")

/-- A non-noop tracerImpl over the sample oracle. -/
def sampleTracerImpl : TracerImpl := { tracer := sampleOTracer, isNoopSingleton := false }

/-- A tracer oracle whose injection fails, for exercising the error paths of
the outbound pipeline. -/
def failInjectOTracer : OTracer :=
  { sampleOTracer with inject := fun _ => some "inject failed" }

/-- A non-noop tracerImpl whose injection fails. -/
def failInjectTracerImpl : TracerImpl :=
  { tracer := failInjectOTracer, isNoopSingleton := false }

/-- A quiet collaborator environment: serialization succeeds with an empty
body, the transport succeeds, and the response is empty. -/
def quietEnv : FasthttpEnv :=
  { marshalRes := Except.ok [], sendErr := none, respHeader := [], respBody := [] }

/- Helper lemmas -/

theorem strData_append (a b : String) : (a ++ b).data = a.data ++ b.data := by
  cases a; cases b; rfl

theorem strAppend_assoc (a b c : String) : a ++ b ++ c = a ++ (b ++ c) := by
  apply String.ext
  simp [strData_append]

theorem strAppend_right_empty (a : String) : a ++ "" = a := by
  apply String.ext
  simp [strData_append]

theorem stringDropLast_append_amp (x : String) : stringDropLast (x ++ "&") = x := by
  have hd : (x ++ "&").data = x.data ++ ['&'] := strData_append x "&"
  apply String.ext
  simp [stringDropLast, hd]

/-- The chunk concatenation the builder loop produces for a pair list. -/
def ampChunks : List (String × String) → String
  | [] => ""
  | kv :: rest => kv.1 ++ "=" ++ kv.2 ++ "&" ++ ampChunks rest

theorem makeup_foldl_eq_ampChunks (qp : List (String × String)) (init : String) :
    qp.foldl (fun acc kv => acc ++ kv.1 ++ "=" ++ kv.2 ++ "&") init
      = init ++ ampChunks qp := by
  induction qp generalizing init with
  | nil => simp [ampChunks, strAppend_right_empty]
  | cons kv rest ih =>
    simp only [List.foldl_cons, ampChunks]
    rw [ih]
    simp [strAppend_assoc]

theorem ampChunks_eq_specAmpJoin (qp : List (String × String)) (h : qp ≠ []) :
    ampChunks qp = specAmpJoin (qp.map fun kv => kv.1 ++ "=" ++ kv.2) ++ "&" := by
  induction qp with
  | nil => exact absurd rfl h
  | cons kv rest ih =>
    cases rest with
    | nil => simp [ampChunks, specAmpJoin, strAppend_right_empty]
    | cons kv2 rest2 =>
      rw [show ampChunks (kv :: kv2 :: rest2)
        = kv.1 ++ "=" ++ kv.2 ++ "&" ++ ampChunks (kv2 :: rest2) from rfl]
      rw [ih (by simp)]
      simp [specAmpJoin, strAppend_assoc]

/- Claim theorems -/

/-- Claim C9: MakeupUrlByHostPathQueryParams returns exactly host ++ path when
the query map (given in its iteration order) is nil or empty; when non-empty
it returns host ++ path ++ "?" followed by the k=v renderings of exactly the
map's pairs joined by single ampersands with no trailing separator. -/
theorem makeupUrl_query_join (host path : String) (qp : List (String × String)) :
    (qp = [] → MakeupUrlByHostPathQueryParams host path qp = host ++ path) ∧
    (qp ≠ [] → MakeupUrlByHostPathQueryParams host path qp
      = host ++ path ++ "?" ++ specAmpJoin (qp.map fun kv => kv.1 ++ "=" ++ kv.2)) := by
  constructor
  · intro h
    subst h
    simp [MakeupUrlByHostPathQueryParams]
  · intro h
    have hlen : ¬ qp.length = 0 := by
      simpa [List.length_eq_zero] using h
    rw [MakeupUrlByHostPathQueryParams, if_neg hlen, makeup_foldl_eq_ampChunks,
      ampChunks_eq_specAmpJoin qp h, ← strAppend_assoc, stringDropLast_append_amp]

/-- Witness for C9 at concrete inputs: the empty map and a two-pair map. -/
theorem makeupUrl_query_join_witness :
    MakeupUrlByHostPathQueryParams "http://127.0.0.1:8080" "/path/xxx" [] =
      "http://127.0.0.1:8080" ++ "/path/xxx" ∧
    MakeupUrlByHostPathQueryParams "http://localhost:18200" "/path/xxx"
        [("abc", "213123"), ("def", "213123")]
      = "http://localhost:18200" ++ "/path/xxx" ++ "?" ++
        specAmpJoin ([("abc", "213123"), ("def", "213123")].map
          fun kv => kv.1 ++ "=" ++ kv.2) :=
  ⟨(makeupUrl_query_join "http://127.0.0.1:8080" "/path/xxx" []).1 rfl,
    (makeupUrl_query_join "http://localhost:18200" "/path/xxx"
      [("abc", "213123"), ("def", "213123")]).2 (by decide)⟩

/-- Claim C1: span derivation from a context is total with the root fallback:
a live Span in the slot yields a span started ChildOf that Span's identity, a
stored SpanContext yields a span started ChildOf it, and a nil context or an
empty slot yields a span started with opName and no references (a root span);
ChildSpanFromParent and FollowerSpanFromParent on a nil parent likewise start
a root span. Totality of these Lean functions (they return a Span, with no
error channel) models that the result is never nil and no error is possible. -/
theorem childSpanFromContext_total_fallback (ti : TracerImpl) (opName : String)
    (ctx : Option Context) :
    (∀ s, ctx = some { slot := CtxVal.span s } →
      ChildSpanFromContext ti opName ctx
        = ti.tracer.startSpan opName [SpanReference.childOf s.spanCtx]) ∧
    (∀ sc, ctx = some { slot := CtxVal.spanCtx sc } →
      ChildSpanFromContext ti opName ctx
        = ti.tracer.startSpan opName [SpanReference.childOf sc]) ∧
    ((ctx = none ∨ ctx = some { slot := CtxVal.empty }) →
      ChildSpanFromContext ti opName ctx = ti.tracer.startSpan opName []) ∧
    ChildSpanFromParent ti opName none = ti.tracer.startSpan opName [] ∧
    FollowerSpanFromParent ti opName none = ti.tracer.startSpan opName [] := by
  refine ⟨?_, ?_, ?_, rfl, rfl⟩
  · intro s h
    subst h
    rfl
  · intro sc h
    subst h
    rfl
  · rintro (h | h) <;> subst h <;> rfl

/-- Witness for C1: each fallback branch discharged at a concrete input over
the sample tracer. -/
theorem childSpanFromContext_total_fallback_witness :
    ChildSpanFromContext sampleTracerImpl "op"
        (some { slot := CtxVal.span { opName := "p", spanCtx := SpanContext.real 3, refs := [] } })
      = sampleOTracer.startSpan "op" [SpanReference.childOf (SpanContext.real 3)] ∧
    ChildSpanFromContext sampleTracerImpl "op"
        (some { slot := CtxVal.spanCtx (SpanContext.real 5) })
      = sampleOTracer.startSpan "op" [SpanReference.childOf (SpanContext.real 5)] ∧
    ChildSpanFromContext sampleTracerImpl "op" none
      = sampleOTracer.startSpan "op" [] :=
  ⟨(childSpanFromContext_total_fallback sampleTracerImpl "op" _).1 _ rfl,
    (childSpanFromContext_total_fallback sampleTracerImpl "op" _).2.1 _ rfl,
    (childSpanFromContext_total_fallback sampleTracerImpl "op" none).2.2.1 (Or.inl rfl)⟩

/-- Claim C8: for the noopTracerImpl singleton (the value InitEmptyTracer
returns), HttpMiddleWare is the identity on handlers: it returns the handler
value itself, with no traced wrapper around it. -/
theorem httpMiddleWare_noop_identity (h : Handler) :
    HttpMiddleWare noopTracerImpl h = h ∧ HttpMiddleWare InitEmptyTracer h = h :=
  ⟨rfl, rfl⟩

/-- Claim C6: folding a fasthttp response header's span context into a non-nil
context: when extraction yields a nil span context (its error is discarded, so
absence is not an error) the input context value itself is returned; when it
yields a span context, a new context is returned whose single activeSpanKey
slot holds exactly that extracted SpanContext, whatever association the input
context held before. Contexts are immutable values in the embedding, so the
input context is never mutated. -/
theorem ctxWithSpanCtxFromFasthttpHeader_pure (ti : TracerImpl) (c : Context)
    (header : Headers) :
    ((extractFromFasthttpHeader ti header).1 = none →
      CtxWithSpanCtxFromFasthttpHeader ti (some c) header = some c) ∧
    (∀ sc, (extractFromFasthttpHeader ti header).1 = some sc →
      CtxWithSpanCtxFromFasthttpHeader ti (some c) header
        = some { slot := CtxVal.spanCtx sc }) := by
  constructor
  · intro h
    simp [CtxWithSpanCtxFromFasthttpHeader, h]
  · intro sc h
    simp [CtxWithSpanCtxFromFasthttpHeader, h]

/-- Witness for C6: the absent branch over the sample tracer (which extracts
nothing) and the present branch over the noop tracer (whose extraction yields
the shared noop span context), both at a context holding a prior association
that the present branch replaces. -/
theorem ctxWithSpanCtxFromFasthttpHeader_pure_witness :
    CtxWithSpanCtxFromFasthttpHeader sampleTracerImpl
        (some { slot := CtxVal.spanCtx (SpanContext.real 9) }) []
      = some { slot := CtxVal.spanCtx (SpanContext.real 9) } ∧
    CtxWithSpanCtxFromFasthttpHeader noopTracerImpl
        (some { slot := CtxVal.spanCtx (SpanContext.real 9) }) []
      = some { slot := CtxVal.spanCtx SpanContext.noopSC } :=
  ⟨(ctxWithSpanCtxFromFasthttpHeader_pure sampleTracerImpl _ []).1 rfl,
    (ctxWithSpanCtxFromFasthttpHeader_pure noopTracerImpl _ []).2 _ rfl⟩

/-- Counterexample for C5: the in-repo noop tracer's Extract does not report
absence: it returns the shared (non-nil) noop span context with a nil error,
so CtxWithSpanCtxFromHttpHeader does not return the caller's context
unchanged — it returns a new context with the noop span context stored. -/
theorem noopExtract_reports_presence_cex :
    (extractFromHttpHeader noopTracerImpl []).1 = some SpanContext.noopSC ∧
    (extractFromHttpHeader noopTracerImpl []).2 = none ∧
    CtxWithSpanCtxFromHttpHeader noopTracerImpl (some { slot := CtxVal.empty }) []
      ≠ some { slot := CtxVal.empty } := by
  refine ⟨rfl, rfl, ?_⟩
  decide

/-- Amended C5: under the no-op substitution, Extract reports presence of the
shared noop span context with no error (for every carrier, under both codec
formats), and CtxWithSpanCtxFromHttpHeader / CtxWithSpanCtxFromFasthttpHeader
therefore return a new context whose slot stores that noop span context
(replacing any prior association); the caller's context object itself is
still left unmodified. -/
theorem noopExtract_presence_stores_noopSC (ctx : Context) (header : Headers) :
    extractFromHttpHeader noopTracerImpl header = (some SpanContext.noopSC, none) ∧
    extractFromFasthttpHeader noopTracerImpl header = (some SpanContext.noopSC, none) ∧
    CtxWithSpanCtxFromHttpHeader noopTracerImpl (some ctx) header
      = some { slot := CtxVal.spanCtx SpanContext.noopSC } ∧
    CtxWithSpanCtxFromFasthttpHeader noopTracerImpl (some ctx) header
      = some { slot := CtxVal.spanCtx SpanContext.noopSC } :=
  ⟨rfl, rfl, rfl, rfl⟩

theorem trackStatusCode_eq_getLastD (writes : List Nat) :
    trackStatusCode writes = writes.getLastD 0 := by
  suffices h : ∀ a, writes.foldl (fun _ statusCode => statusCode) a = writes.getLastD a by
    exact h 0
  induction writes with
  | nil => intro a; rfl
  | cons w t ih =>
    intro a
    rw [List.foldl_cons, ih w, List.getLastD_cons a w t]

/-- Counterexample for C4: the operation name the middleware builds is not
method, space, path and nothing else: getOperationNameFromHttpRequest starts
with the fixed prefix HTTP followed by a space, so for a GET of /x it yields
"HTTP GET /x", not "GET /x". -/
theorem getOperationName_http_prefixed_cex :
    getOperationNameFromHttpRequest
        { method := "GET", urlPath := "/x", header := [], ctx := none }
      = "HTTP GET /x" ∧
    getOperationNameFromHttpRequest
        { method := "GET", urlPath := "/x", header := [], ctx := none }
      ≠ specOperationName
        { method := "GET", urlPath := "/x", header := [], ctx := none } := by
  exact ⟨rfl, by decide⟩

/-- Amended C4: for every inbound request, the span the (non-noop) middleware
creates and finishes is started with operation name "HTTP " ++ method ++ " "
++ path — the method, a single space and the URL path, preceded by the fixed
prefix "HTTP " — so over a tracer that honours the requested operation name
(such as the sample oracle shape startSpan op refs yielding opName op) the
finished span's operation name is exactly that string. -/
theorem middleware_opName_http_method_path (ti : TracerImpl) (h : Handler)
    (r : Request) (hn : ti.isNoopSingleton = false)
    (hop : ∀ op refs, (ti.tracer.startSpan op refs).opName = op) :
    ((serve (HttpMiddleWare ti h) r).finishedSpans.getLast?).map
        (fun p => p.1.opName)
      = some ("HTTP " ++ r.method ++ " " ++ r.urlPath) := by
  rw [HttpMiddleWare, if_neg (by simp [hn])]
  have hspan : (ChildSpanFromHttpHeader ti (getOperationNameFromHttpRequest r) r.header).opName
      = getOperationNameFromHttpRequest r := by
    rw [ChildSpanFromHttpHeader, getSpanFromHttpHeader]
    rcases (extractFromHttpHeader ti r.header).1 with _ | sc
    · exact hop _ _
    · exact hop _ _
  simp only [serve]
  rw [List.getLast?_concat]
  simp only [Option.map_some']
  exact congrArg some hspan

/-- Witness for C4 amended: the sample tracer at a concrete request. -/
theorem middleware_opName_http_method_path_witness :
    ((serve (HttpMiddleWare sampleTracerImpl (Handler.base fun _ => [200]))
        { method := "GET", urlPath := "/x", header := [], ctx := none }).finishedSpans.getLast?).map
        (fun p => p.1.opName)
      = some ("HTTP " ++ "GET" ++ " " ++ "/x") :=
  middleware_opName_http_method_path sampleTracerImpl (Handler.base fun _ => [200])
    { method := "GET", urlPath := "/x", header := [], ctx := none }
    rfl (fun op refs => rfl)

/-- Counterexample for C7: a handler that calls WriteHeader with 200 and then
404 produces a finished middleware span whose logged http.status_code field
is 404, the argument of the last WriteHeader call, not the 200 of the first
call. -/
theorem middleware_statusCode_first_write_cex :
    (serve (HttpMiddleWare sampleTracerImpl (Handler.base fun _ => [200, 404]))
        { method := "GET", urlPath := "/missing", header := [], ctx := none }).finishedSpans.map
        (fun p => p.2)
      = [[logFieldHttpMiddleWareComponentName, LogField.int "http.status_code" 404]] ∧
    List.head? [200, 404] = some 200 ∧ (404 : Int) ≠ 200 :=
  ⟨rfl, rfl, by decide⟩

/-- Amended C7: the wrapped response writer records the last status code
written (Go zero value 0 when the handler never calls WriteHeader): after the
handler runs, the middleware span's logged fields are the component field and
an http.status_code field equal to the argument of the last WriteHeader call
that reached the wrapped writer; a handler writing WriteHeader exactly once
(such as one writing only 404) therefore still yields a span logging that
code. -/
theorem middleware_logs_last_statusCode (ti : TracerImpl) (h : Handler)
    (r : Request) (hn : ti.isNoopSingleton = false) :
    ((serve (HttpMiddleWare ti h) r).finishedSpans.getLast?).map (fun p => p.2)
      = some [logFieldHttpMiddleWareComponentName,
          LogField.int "http.status_code"
            (Int.ofNat ((serve (HttpMiddleWare ti h) r).writerCalls.getLastD 0))] := by
  rw [HttpMiddleWare, if_neg (by simp [hn])]
  simp only [serve]
  rw [List.getLast?_concat]
  simp [trackStatusCode_eq_getLastD]

/-- Witness for C7 amended: a concrete handler writing 404 once under the
sample tracer; the logged status code is 404. -/
theorem middleware_logs_last_statusCode_witness :
    ((serve (HttpMiddleWare sampleTracerImpl (Handler.base fun _ => [404]))
        { method := "GET", urlPath := "/missing", header := [], ctx := none }).finishedSpans.getLast?).map
        (fun p => p.2)
      = some [logFieldHttpMiddleWareComponentName,
          LogField.int "http.status_code"
            (Int.ofNat ((serve (HttpMiddleWare sampleTracerImpl (Handler.base fun _ => [404]))
              { method := "GET", urlPath := "/missing", header := [], ctx := none }).writerCalls.getLastD 0))] :=
  middleware_logs_last_statusCode sampleTracerImpl (Handler.base fun _ => [404])
    { method := "GET", urlPath := "/missing", header := [], ctx := none } rfl

/-- The handler used to exercise ForeachKey on its error path: it errors on
the trace-id header and succeeds on everything else. -/
def cexVisitHandler : String → String → Option Err :=
  fun key _ => if key = "ot-mw-trace-id" then some "boom" else none

/-- Claim C3, settled against the code at its failing input: ForeachKey does
not abort at the first pair whose handler errors and does not return that
first error. With two pairs whose first visit errors, the VisitAll loop still
visits the second pair and the closure overwrites the captured error with the
second (nil) result, so ForeachKey returns nil and the error is lost. -/
theorem foreachKey_last_error_eval :
    cexVisitHandler "ot-mw-trace-id" "abc" = some "boom" ∧
    ForeachKey [("ot-mw-trace-id", "abc"), ("content-length", "5")] cexVisitHandler
      = none ∧
    foreachKeyVisited [("ot-mw-trace-id", "abc"), ("content-length", "5")] cexVisitHandler
      = [("ot-mw-trace-id", "abc"), ("content-length", "5")] := by
  refine ⟨?_, rfl, rfl⟩
  rw [cexVisitHandler, if_pos rfl]

/-- Claim C2: in fasthttpReq, if injecting the derived span's context into the
request header fails, that error is returned and no send is attempted
(Event.send never occurs in the trace); and on every exit path — injection
error, serialization error, transport error, or success — the deferred
Finish of the derived span runs (Event.spanFinish occurs in the trace). -/
theorem fasthttpReq_inject_abort_and_always_finish (ti : TracerImpl)
    (env : FasthttpEnv) (ctx : Option Context) (url method : String)
    (hasJsonData : Bool) :
    (∀ e, ti.tracer.inject (ChildSpanFromContext ti url ctx).spanCtx = some e →
      (fasthttpReq ti env ctx url method hasJsonData).err = some e ∧
      Event.send ∉ (fasthttpReq ti env ctx url method hasJsonData).events) ∧
    Event.spanFinish ∈ (fasthttpReq ti env ctx url method hasJsonData).events := by
  constructor
  · intro e he
    simp [fasthttpReq, Inject2FasthttpHeader, he]
  · simp only [fasthttpReq]
    split
    · simp
    · split
      · simp
      · split
        · simp
        · simp

/-- Witness for C2: a tracer whose injection fails, at a quiet environment:
the error is returned, send is absent from the trace, finish is present. -/
theorem fasthttpReq_inject_abort_and_always_finish_witness :
    failInjectTracerImpl.tracer.inject
        (ChildSpanFromContext failInjectTracerImpl "http://h/p" none).spanCtx
      = some "inject failed" ∧
    ((fasthttpReq failInjectTracerImpl quietEnv none "http://h/p" "GET" false).err
        = some "inject failed" ∧
      Event.send ∉ (fasthttpReq failInjectTracerImpl quietEnv none "http://h/p" "GET" false).events) ∧
    Event.spanFinish ∈ (fasthttpReq failInjectTracerImpl quietEnv none "http://h/p" "GET" false).events :=
  ⟨rfl,
    (fasthttpReq_inject_abort_and_always_finish failInjectTracerImpl quietEnv none
      "http://h/p" "GET" false).1 "inject failed" rfl,
    (fasthttpReq_inject_abort_and_always_finish failInjectTracerImpl quietEnv none
      "http://h/p" "GET" false).2⟩

theorem fasthttpReq_err_outputs_nil (ti : TracerImpl) (env : FasthttpEnv)
    (ctx : Option Context) (url method : String) (hasJsonData : Bool) :
    (fasthttpReq ti env ctx url method hasJsonData).err ≠ none →
    (fasthttpReq ti env ctx url method hasJsonData).newCtx = none ∧
    (fasthttpReq ti env ctx url method hasJsonData).respBody = none := by
  simp only [fasthttpReq]
  split
  · intro _; exact ⟨rfl, rfl⟩
  · split
    · intro _; exact ⟨rfl, rfl⟩
    · split
      · intro _; exact ⟨rfl, rfl⟩
      · intro hne; exact absurd rfl hne

/-- Claim C10: each of GetFasthttp, PostJsonFasthttp, PutJsonFasthttp and
DeleteJsonFasthttp returns a nil newCtx and a nil respBody whenever it
returns a non-nil error (the named returns are only assigned on the success
path, so every error exit passes back neither a context nor a body). -/
theorem fasthttpWrappers_nil_outputs_on_error (ti : TracerImpl)
    (env : FasthttpEnv) (ctx : Option Context) (url : String) (hasJsonData : Bool) :
    ((GetFasthttp ti env ctx url).err ≠ none →
      (GetFasthttp ti env ctx url).newCtx = none ∧
      (GetFasthttp ti env ctx url).respBody = none) ∧
    ((PostJsonFasthttp ti env ctx url hasJsonData).err ≠ none →
      (PostJsonFasthttp ti env ctx url hasJsonData).newCtx = none ∧
      (PostJsonFasthttp ti env ctx url hasJsonData).respBody = none) ∧
    ((PutJsonFasthttp ti env ctx url hasJsonData).err ≠ none →
      (PutJsonFasthttp ti env ctx url hasJsonData).newCtx = none ∧
      (PutJsonFasthttp ti env ctx url hasJsonData).respBody = none) ∧
    ((DeleteJsonFasthttp ti env ctx url hasJsonData).err ≠ none →
      (DeleteJsonFasthttp ti env ctx url hasJsonData).newCtx = none ∧
      (DeleteJsonFasthttp ti env ctx url hasJsonData).respBody = none) :=
  ⟨fasthttpReq_err_outputs_nil ti env ctx url "GET" false,
    fasthttpReq_err_outputs_nil ti env ctx url "POST" hasJsonData,
    fasthttpReq_err_outputs_nil ti env ctx url "PUT" hasJsonData,
    fasthttpReq_err_outputs_nil ti env ctx url "DELETE" hasJsonData⟩

/-- Witness for C10: a concrete failing GetFasthttp call (injection fails)
returns an error together with nil newCtx and nil respBody. -/
theorem fasthttpWrappers_nil_outputs_on_error_witness :
    (GetFasthttp failInjectTracerImpl quietEnv none "http://h/p").err ≠ none ∧
    (GetFasthttp failInjectTracerImpl quietEnv none "http://h/p").newCtx = none ∧
    (GetFasthttp failInjectTracerImpl quietEnv none "http://h/p").respBody = none := by
  have hmain := (fasthttpWrappers_nil_outputs_on_error failInjectTracerImpl quietEnv
    none "http://h/p" false).1 (by decide)
  exact ⟨by decide, hmain.1, hmain.2⟩
